import Mathlib

/-!
Verification development for the lxp-bridge coordinator and command layer.

The Rust sources under `src/` are embedded shallowly: pure computations
become Lean functions, and the effectful command/coordinator code is
embedded as functions that return the list of channel events (packets put
on `to_inverter`, messages put on `to_mqtt`, register-cache writes) next
to their `Result` value.  Channel sends that can fail in Rust are given an
explicit `sendOk : Bool` argument; reply reception (`wait_for_reply`) is
given as an explicit `Except` argument, since the reply arrives from
outside the embedded code.

Parts of the repository that the sources reference but that are not under
`src/` (the packet accessor methods of `lxp::packet`, the mqtt message
parser, the time-register command runners) are modelled from the spec;
every such definition carries a doc comment starting with
`Modelled from the spec:`.
-/

namespace LxpBridge

/-- A datalog or inverter serial: a 10-byte ASCII identifier, kept as a
string as the spec's data model renders it. -/
abbrev Serial := String

/-- `lxp::packet::DeviceFunction` (ReadInput, ReadHold, WriteSingle,
WriteMulti), as used by `src/src/coordinator/mod.rs`. -/
inductive DeviceFunction
  | readInput
  | readHold
  | writeSingle
  | writeMulti
deriving DecidableEq

/-- `lxp::packet::TranslatedData`, with the fields the sources construct
and read: datalog serial, device function, embedded inverter serial
(optional, matching the `td.inverter() != Some(..)` comparison in
`process_inverter_packet`), start register and raw payload bytes. -/
structure TranslatedData where
  datalog : Serial
  device_function : DeviceFunction
  inverter : Option Serial
  register : Nat
  values : List Nat
deriving DecidableEq

/-- `lxp::packet::ReadParam` as constructed by `read_param.rs`. -/
structure ReadParamData where
  datalog : Serial
  register : Nat
  values : List Nat
deriving DecidableEq

/-- `lxp::packet::Packet`, the tagged packet variant of the data model. -/
inductive Packet
  | heartbeat (datalog : Serial)
  | translatedData (td : TranslatedData)
  | readParam (rp : ReadParamData)
  | writeParam (datalog : Serial) (register : Nat) (values : List Nat)
deriving DecidableEq

/-- Little-endian combination of two payload bytes into one u16 word. -/
def le16 (lo hi : Nat) : Nat := lo + 256 * hi

/-- `u16::to_le_bytes` of a value: low byte then high byte. -/
def u16le (v : Nat) : List Nat := [v % 256, v / 256 % 256]

/-- Modelled from the spec: `TranslatedData::value()` (in `lxp/packet.rs`,
not under `src/`) returns the single echoed u16, read little-endian from
the first two payload bytes. -/
def TranslatedData.value (td : TranslatedData) : Nat :=
  match td.values with
  | lo :: hi :: _ => le16 lo hi
  | _ => 0

/-- Modelled from the spec: `Packet::value()` delegates to the translated
frame's echoed value; other packet kinds carry none. -/
def Packet.value : Packet → Nat
  | .translatedData td => td.value
  | _ => 0

/-- Auxiliary recursion for `TranslatedData.pairs`: consecutive registers
paired with little-endian u16 words of the payload. -/
def pairsAux (register : Nat) : List Nat → List (Nat × Nat)
  | lo :: hi :: rest => (register, le16 lo hi) :: pairsAux (register + 1) rest
  | _ => []

/-- Modelled from the spec: `TranslatedData::pairs()` (in `lxp/packet.rs`,
not under `src/`) decodes the payload into `(register, value)` pairs, the
registers counting up from the frame's start register and each value read
little-endian from two payload bytes. -/
def TranslatedData.pairs (td : TranslatedData) : List (Nat × Nat) :=
  pairsAux td.register td.values

/-- `config::Inverter` from `src/src/config.rs`.  The `read_only` field is
Modelled from the spec: the getter `Inverter::read_only()` called by
`set_hold.rs` is not in the `src/` copy of `config.rs`; the spec's §3
inverter config lists the `read_only` flag, and the getter returns it. -/
structure Inverter where
  enabled : Bool
  host : String
  port : Nat
  serial : Serial
  datalog : Serial
  heartbeats : Option Bool
  publish_holdings_on_connect : Option Bool
  read_timeout : Option Nat
  use_tcp_nodelay : Option Bool
  register_block_size : Option Nat
  delay_ms : Option Nat
  read_only : Bool
deriving DecidableEq

/-- `Inverter::publish_holdings_on_connect()`: true only when the optional
field is `Some(true)`. -/
def Inverter.publishHoldingsOnConnect (i : Inverter) : Bool :=
  i.publish_holdings_on_connect == some true

/-- `Inverter::read_timeout()`: the configured value, defaulting to 900. -/
def Inverter.readTimeoutEff (i : Inverter) : Nat :=
  i.read_timeout.getD 900

/-- `Inverter::register_block_size()`: the configured value, defaulting
to 40. -/
def Inverter.registerBlockSize (i : Inverter) : Nat :=
  i.register_block_size.getD 40

/-- Outcome of one command primitive run: the packets the run put on the
`to_inverter` channel, and its `Result`. -/
structure RunOut where
  sent : List Packet
  result : Except String Packet

/-- `SetHold::run` from `src/src/coordinator/commands/set_hold.rs`.
`sendOk` stands for the `to_inverter` send succeeding; `reply` is what
`wait_for_reply` returns (`.error` on timeout or closed channel). -/
def setHoldRun (inv : Inverter) (register value : Nat)
    (sendOk : Bool) (reply : Except String Packet) : RunOut :=
  if inv.read_only then
    ⟨[], .error ("Cannot set holding register " ++ toString register ++
      " to value " ++ toString value ++ " - inverter " ++ inv.datalog ++
      " is in read-only mode")⟩
  else
    let packet := Packet.translatedData
      ⟨inv.datalog, .writeSingle, some inv.serial, register, u16le value⟩
    if !sendOk then
      ⟨[], .error "send(to_inverter) failed - channel closed?"⟩
    else
      match reply with
      | .error e => ⟨[packet], .error e⟩
      | .ok p =>
        if p.value ≠ value then
          ⟨[packet], .error ("failed to set register " ++ toString register ++
            ", got back value " ++ toString p.value ++ " (wanted " ++
            toString value ++ ")")⟩
        else ⟨[packet], .ok p⟩

/-- `ReadInputs::run` from `src/src/coordinator/commands/read_inputs.rs`:
builds a ReadInput frame whose payload encodes the count as
`[count as u8, 0]`, sends it, then returns the awaited reply. -/
def readInputsRun (inv : Inverter) (register count : Nat)
    (sendOk : Bool) (reply : Except String Packet) : RunOut :=
  let packet := Packet.translatedData
    ⟨inv.datalog, .readInput, some inv.serial, register, [count % 256, 0]⟩
  if !sendOk then
    ⟨[], .error "send(to_inverter) failed - channel closed?"⟩
  else ⟨[packet], reply⟩

/-- `ReadHold::run` from `src/src/coordinator/commands/read_hold.rs`:
identical shape to `ReadInputs::run` with device function ReadHold. -/
def readHoldRun (inv : Inverter) (register count : Nat)
    (sendOk : Bool) (reply : Except String Packet) : RunOut :=
  let packet := Packet.translatedData
    ⟨inv.datalog, .readHold, some inv.serial, register, [count % 256, 0]⟩
  if !sendOk then
    ⟨[], .error "send(to_inverter) failed - channel closed?"⟩
  else ⟨[packet], reply⟩

/-- `mqtt::Message`: topic, retain flag and payload, as constructed in
`src/src/coordinator/mod.rs`. -/
structure Message where
  topic : String
  retain : Bool
  payload : String
deriving DecidableEq

/-- One observable coordinator effect: an MQTT publish (send on `to_mqtt`)
or a register-cache write (send on `to_register_cache`). -/
inductive Event
  | mqttMsg (m : Message)
  | cacheWrite (register value : Nat)
deriving DecidableEq

/-- `Coordinator::publish_message`: wraps topic/payload/retain into a
message and sends it on `to_mqtt`.  The channel is modelled as open, so
the send succeeds and the message is the emitted event. -/
def publishMessage (topic payload : String) (retain : Bool) : List Event :=
  [.mqttMsg ⟨topic, retain, payload⟩]

/-- `Coordinator::publish_raw_input_messages`: nothing when MQTT is
disabled, otherwise one non-retained publish of the serialized
ReadInputAll JSON (the serialization, done by serde outside `src/`, is
passed in as `jsonAll`) to `{datalog}/inputs/all`. -/
def publishRawInputMessages (mqttEnabled : Bool) (jsonAll : String)
    (inv : Inverter) : List Event :=
  if !mqttEnabled then []
  else publishMessage (inv.datalog ++ "/inputs/all") jsonAll false

/-- `Coordinator::publish_raw_input_messages_1`: as above for
`{datalog}/inputs/1`. -/
def publishRawInputMessages1 (mqttEnabled : Bool) (json1 : String)
    (inv : Inverter) : List Event :=
  if !mqttEnabled then []
  else publishMessage (inv.datalog ++ "/inputs/1") json1 false

/-- `Coordinator::publish_hold_message`: nothing when MQTT is disabled,
otherwise one retained publish per `(reg, value)` pair to
`{datalog}/hold/{reg}` carrying the decimal value. -/
def publishHoldMessage (mqttEnabled : Bool) (_register : Nat)
    (pairs : List (Nat × Nat)) (inv : Inverter) : List Event :=
  if !mqttEnabled then []
  else (pairs.map (fun p =>
    publishMessage (inv.datalog ++ "/hold/" ++ toString p.1)
      (toString p.2) true)).flatten

/-- `Coordinator::publish_write_confirmation`: nothing when MQTT is
disabled, otherwise `OK: {reg} = {value}` to `{datalog}/write/status`. -/
def publishWriteConfirmation (mqttEnabled : Bool) (register value : Nat)
    (inv : Inverter) : List Event :=
  if !mqttEnabled then []
  else publishMessage (inv.datalog ++ "/write/status")
    ("OK: " ++ toString register ++ " = " ++ toString value) false

/-- Rust `{:?}` debug rendering of a `Vec<(u16, u16)>`, used for the
write-multi status payload. -/
def pairsDebug (pairs : List (Nat × Nat)) : String :=
  "[" ++ String.intercalate ", "
    (pairs.map (fun p => "(" ++ toString p.1 ++ ", " ++ toString p.2 ++ ")"))
  ++ "]"

/-- `Coordinator::publish_write_multi_confirmation`: nothing when MQTT is
disabled, otherwise `OK: {:?}` of the pairs to
`{datalog}/write_multi/status`. -/
def publishWriteMultiConfirmation (mqttEnabled : Bool)
    (pairs : List (Nat × Nat)) (inv : Inverter) : List Event :=
  if !mqttEnabled then []
  else publishMessage (inv.datalog ++ "/write_multi/status")
    ("OK: " ++ pairsDebug pairs) false

/-- The shape `td.read_input()` decodes into; the decoder itself lives in
`lxp/packet.rs` outside `src/`, so `processInverterPacket` takes the
decoding outcome as an argument. -/
inductive ReadInputVariant
  | readInputAll
  | readInput1
  | other
deriving DecidableEq

/-- Outcome of `Coordinator::process_inverter_packet`: the increment it
applies to the `serial_mismatches` counter, the events it emits, and
whether it returns `Ok` (it returns `Err` only when `td.read_input()?`
fails; publish and cache-send failures are swallowed and counted). -/
structure PacketOutcome where
  serialMismatches : Nat
  events : List Event
  ok : Bool
deriving DecidableEq

/-- `Coordinator::process_inverter_packet` from
`src/src/coordinator/mod.rs`: drop with a `serial_mismatches` increment
when the embedded inverter serial differs from the configured one,
otherwise dispatch on the device function.  `decodeRI` is the outcome of
`td.read_input()` and `jsonAll`/`json1` the serde serializations, all
computed outside `src/`. -/
def processInverterPacket (mqttEnabled : Bool)
    (decodeRI : TranslatedData → Except String ReadInputVariant)
    (jsonAll json1 : String) (packet : Packet) (inv : Inverter) :
    PacketOutcome :=
  match packet with
  | .translatedData td =>
    if td.inverter ≠ some inv.serial then ⟨1, [], true⟩
    else
      match td.device_function with
      | .readInput =>
        match decodeRI td with
        | .error _ => ⟨0, [], false⟩
        | .ok .readInputAll =>
          ⟨0, publishRawInputMessages mqttEnabled jsonAll inv, true⟩
        | .ok .readInput1 =>
          ⟨0, publishRawInputMessages1 mqttEnabled json1 inv, true⟩
        | .ok .other => ⟨0, [], true⟩
      | .readHold =>
        ⟨0, td.pairs.map (fun p => Event.cacheWrite p.1 p.2) ++
            publishHoldMessage mqttEnabled td.register td.pairs inv, true⟩
      | .writeSingle =>
        ⟨0, [Event.cacheWrite td.register td.value] ++
            publishWriteConfirmation mqttEnabled td.register td.value inv,
          true⟩
      | .writeMulti =>
        ⟨0, td.pairs.map (fun p => Event.cacheWrite p.1 p.2) ++
            publishWriteMultiConfirmation mqttEnabled td.pairs inv, true⟩
  | _ => ⟨0, [], true⟩

/-- `time_register_ops::Action`: the four time-register groups with their
slot number, as matched in `Coordinator::process_command`. -/
inductive Action
  | acCharge (num : Nat)
  | acFirst (num : Nat)
  | chargePriority (num : Nat)
  | forcedDischarge (num : Nat)
deriving DecidableEq

/-- `lxp::packet::RegisterBit` names used by `process_command`. -/
inductive RegisterBit
  | acChargeEnable
  | chargePriorityEnable
  | forcedDischargeEnable
deriving DecidableEq

/-- Modelled from the spec: the numeric values of the
`lxp::packet::Register` names `process_command` passes to the set-hold /
update-hold primitives (`packet.rs` is not under `src/`).  `Register21`
is the register-21 feature-flag word (spec §8 scenario 5); the percent
command registers follow the hold-register table decoded by
`parse_hold_register` (64 charge rate, 65 discharge rate, 66 AC charge
power, 67 AC charge SOC limit) and the discharge cut-off SOC register is
105. -/
inductive Register
  | register21
  | chargePowerPercentCmd
  | dischgPowerPercentCmd
  | acChargePowerCmd
  | acChargeSocLimit
  | dischgCutOffSocEod
deriving DecidableEq

/-- Modelled from the spec: `Register as u16`. -/
def Register.toU16 : Register → Nat
  | .register21 => 21
  | .chargePowerPercentCmd => 64
  | .dischgPowerPercentCmd => 65
  | .acChargePowerCmd => 66
  | .acChargeSocLimit => 67
  | .dischgCutOffSocEod => 105

/-- The `Command` enum (declared in `command.rs`, outside `src/`), with
exactly the variants `Coordinator::process_command` matches on. -/
inductive Command
  | readInputs (inv : Inverter) (block : Nat)
  | readInput (inv : Inverter) (register count : Nat)
  | readHold (inv : Inverter) (register count : Nat)
  | readParam (inv : Inverter) (register : Nat)
  | readAcChargeTime (inv : Inverter) (num : Nat)
  | readAcFirstTime (inv : Inverter) (num : Nat)
  | readChargePriorityTime (inv : Inverter) (num : Nat)
  | readForcedDischargeTime (inv : Inverter) (num : Nat)
  | setHold (inv : Inverter) (register value : Nat)
  | writeParam (inv : Inverter) (register value : Nat)
  | setAcChargeTime (inv : Inverter) (num : Nat) (values : List Nat)
  | setAcFirstTime (inv : Inverter) (num : Nat) (values : List Nat)
  | setChargePriorityTime (inv : Inverter) (num : Nat) (values : List Nat)
  | setForcedDischargeTime (inv : Inverter) (num : Nat) (values : List Nat)
  | acCharge (inv : Inverter) (enable : Bool)
  | chargePriority (inv : Inverter) (enable : Bool)
  | forcedDischarge (inv : Inverter) (enable : Bool)
  | chargeRate (inv : Inverter) (pct : Nat)
  | dischargeRate (inv : Inverter) (pct : Nat)
  | acChargeRate (inv : Inverter) (pct : Nat)
  | acChargeSocLimitCmd (inv : Inverter) (pct : Nat)
  | dischargeCutoffSocLimit (inv : Inverter) (pct : Nat)
deriving DecidableEq

/-- Modelled from the spec: `Command::to_result_topic` (in `command.rs`,
outside `src/`) is `{cmd_topic}/result` where the command topic follows
§6's grammar `{ns}/cmd/{datalog}/{verb}[/{arg}...]` with the default
namespace `lxp`. -/
def Command.toResultTopic : Command → String
  | .readInputs inv n => "lxp/cmd/" ++ inv.datalog ++ "/read_inputs/" ++ toString n ++ "/result"
  | .readInput inv r c => "lxp/cmd/" ++ inv.datalog ++ "/read_input/" ++ toString r ++ "/" ++ toString c ++ "/result"
  | .readHold inv r c => "lxp/cmd/" ++ inv.datalog ++ "/read_hold/" ++ toString r ++ "/" ++ toString c ++ "/result"
  | .readParam inv r => "lxp/cmd/" ++ inv.datalog ++ "/read_param/" ++ toString r ++ "/result"
  | .readAcChargeTime inv n => "lxp/cmd/" ++ inv.datalog ++ "/read_ac_charge_time/" ++ toString n ++ "/result"
  | .readAcFirstTime inv n => "lxp/cmd/" ++ inv.datalog ++ "/read_ac_first_time/" ++ toString n ++ "/result"
  | .readChargePriorityTime inv n => "lxp/cmd/" ++ inv.datalog ++ "/read_charge_priority_time/" ++ toString n ++ "/result"
  | .readForcedDischargeTime inv n => "lxp/cmd/" ++ inv.datalog ++ "/read_forced_discharge_time/" ++ toString n ++ "/result"
  | .setHold inv r _ => "lxp/cmd/" ++ inv.datalog ++ "/set_hold/" ++ toString r ++ "/result"
  | .writeParam inv r _ => "lxp/cmd/" ++ inv.datalog ++ "/write_param/" ++ toString r ++ "/result"
  | .setAcChargeTime inv n _ => "lxp/cmd/" ++ inv.datalog ++ "/set_ac_charge_time/" ++ toString n ++ "/result"
  | .setAcFirstTime inv n _ => "lxp/cmd/" ++ inv.datalog ++ "/set_ac_first_time/" ++ toString n ++ "/result"
  | .setChargePriorityTime inv n _ => "lxp/cmd/" ++ inv.datalog ++ "/set_charge_priority_time/" ++ toString n ++ "/result"
  | .setForcedDischargeTime inv n _ => "lxp/cmd/" ++ inv.datalog ++ "/set_forced_discharge_time/" ++ toString n ++ "/result"
  | .acCharge inv _ => "lxp/cmd/" ++ inv.datalog ++ "/ac_charge/result"
  | .chargePriority inv _ => "lxp/cmd/" ++ inv.datalog ++ "/charge_priority/result"
  | .forcedDischarge inv _ => "lxp/cmd/" ++ inv.datalog ++ "/forced_discharge/result"
  | .chargeRate inv _ => "lxp/cmd/" ++ inv.datalog ++ "/charge_rate/result"
  | .dischargeRate inv _ => "lxp/cmd/" ++ inv.datalog ++ "/discharge_rate/result"
  | .acChargeRate inv _ => "lxp/cmd/" ++ inv.datalog ++ "/ac_charge_rate/result"
  | .acChargeSocLimitCmd inv _ => "lxp/cmd/" ++ inv.datalog ++ "/ac_charge_soc_limit/result"
  | .dischargeCutoffSocLimit inv _ => "lxp/cmd/" ++ inv.datalog ++ "/discharge_cutoff_soc_limit/result"

/-- A call to one of the command primitives, as dispatched by
`Coordinator::process_command` and `Coordinator::inverter_connected`. -/
inductive PrimCall
  | readInputsCall (inv : Inverter) (register count : Nat)
  | readHoldCall (inv : Inverter) (register count : Nat)
  | readParamCall (inv : Inverter) (register : Nat)
  | readTimeCall (inv : Inverter) (a : Action)
  | setHoldCall (inv : Inverter) (register value : Nat)
  | writeParamCall (inv : Inverter) (register value : Nat)
  | setTimeCall (inv : Inverter) (a : Action) (values : List Nat)
  | updateHoldCall (inv : Inverter) (register : Nat) (bit : RegisterBit) (enable : Bool)
deriving DecidableEq

/-- The dispatch arm of `Coordinator::process_command`: which single
primitive it invokes for each command.  `ReadInputs` with a block other
than 1-4 hits the `unreachable!()` arm, embedded as an error. -/
def processCommandCalls : Command → Except String PrimCall
  | .readInputs inv 1 => .ok (.readInputsCall inv 0 40)
  | .readInputs inv 2 => .ok (.readInputsCall inv 40 40)
  | .readInputs inv 3 => .ok (.readInputsCall inv 80 40)
  | .readInputs inv 4 => .ok (.readInputsCall inv 120 40)
  | .readInputs _ _ => .error "unreachable"
  | .readInput inv r c => .ok (.readInputsCall inv r c)
  | .readHold inv r c => .ok (.readHoldCall inv r c)
  | .readParam inv r => .ok (.readParamCall inv r)
  | .readAcChargeTime inv n => .ok (.readTimeCall inv (.acCharge n))
  | .readAcFirstTime inv n => .ok (.readTimeCall inv (.acFirst n))
  | .readChargePriorityTime inv n => .ok (.readTimeCall inv (.chargePriority n))
  | .readForcedDischargeTime inv n => .ok (.readTimeCall inv (.forcedDischarge n))
  | .setHold inv r v => .ok (.setHoldCall inv r v)
  | .writeParam inv r v => .ok (.writeParamCall inv r v)
  | .setAcChargeTime inv n vs => .ok (.setTimeCall inv (.acCharge n) vs)
  | .setAcFirstTime inv n vs => .ok (.setTimeCall inv (.acFirst n) vs)
  | .setChargePriorityTime inv n vs => .ok (.setTimeCall inv (.chargePriority n) vs)
  | .setForcedDischargeTime inv n vs => .ok (.setTimeCall inv (.forcedDischarge n) vs)
  | .acCharge inv en => .ok (.updateHoldCall inv Register.register21.toU16 .acChargeEnable en)
  | .chargePriority inv en => .ok (.updateHoldCall inv Register.register21.toU16 .chargePriorityEnable en)
  | .forcedDischarge inv en => .ok (.updateHoldCall inv Register.register21.toU16 .forcedDischargeEnable en)
  | .chargeRate inv pct => .ok (.setHoldCall inv Register.chargePowerPercentCmd.toU16 pct)
  | .dischargeRate inv pct => .ok (.setHoldCall inv Register.dischgPowerPercentCmd.toU16 pct)
  | .acChargeRate inv pct => .ok (.setHoldCall inv Register.acChargePowerCmd.toU16 pct)
  | .acChargeSocLimitCmd inv pct => .ok (.setHoldCall inv Register.acChargeSocLimit.toU16 pct)
  | .dischargeCutoffSocLimit inv pct => .ok (.setHoldCall inv Register.dischgCutOffSocEod.toU16 pct)

/-- Outcome of `Coordinator::process_message`: the messages published on
`to_mqtt` and the commands dispatched to `process_command`, in order. -/
structure ProcessMessageOut where
  published : List Message
  dispatched : List Command
deriving DecidableEq

/-- The per-inverter loop body of `Coordinator::process_message`.  A parse
error from `to_command` is only logged; a dispatch failure publishes
`FAIL` (non-retained) to the command's result topic, and if that
`to_mqtt` send fails the loop bails out with an error. -/
def processMessageLoop (toCmd : Inverter → Except String Command)
    (dispatchFails : Command → Bool) (sendOk : Bool) :
    List Inverter → Except String ProcessMessageOut
  | [] => .ok ⟨[], []⟩
  | inv :: rest =>
    match toCmd inv with
    | .error _ => processMessageLoop toCmd dispatchFails sendOk rest
    | .ok c =>
      if dispatchFails c then
        if sendOk then
          match processMessageLoop toCmd dispatchFails sendOk rest with
          | .error e => .error e
          | .ok tail =>
            .ok ⟨⟨c.toResultTopic, false, "FAIL"⟩ :: tail.published,
                 c :: tail.dispatched⟩
        else .error "send(to_mqtt) failed - channel closed?"
      else
        match processMessageLoop toCmd dispatchFails sendOk rest with
        | .error e => .error e
        | .ok tail => .ok ⟨tail.published, c :: tail.dispatched⟩

/-- `Coordinator::process_message` from `src/src/coordinator/mod.rs`:
returns immediately when MQTT is disabled, otherwise runs the loop over
the inverters resolved for the message (`targets`, the output of
`inverters_for_message`).  `toCmd` is the outcome of
`message.to_command(inverter)` and `dispatchFails` whether
`process_command` returns an error, both computed outside this
function. -/
def processMessage (mqttEnabled : Bool) (targets : List Inverter)
    (toCmd : Inverter → Except String Command)
    (dispatchFails : Command → Bool) (sendOk : Bool) :
    Except String ProcessMessageOut :=
  if !mqttEnabled then .ok ⟨[], []⟩
  else processMessageLoop toCmd dispatchFails sendOk targets

/-- `ConfigWrapper::enabled_inverter_with_datalog` from
`src/src/config.rs`: the first enabled inverter whose datalog matches. -/
def enabledInverterWithDatalog (inverters : List Inverter)
    (datalog : Serial) : Option Inverter :=
  (inverters.filter (fun i => i.enabled)).find? (fun i => i.datalog == datalog)

/-- The four `read_time_register` calls `inverter_connected` makes for one
slot number, in source order. -/
def timeCallsForNum (inv : Inverter) (n : Nat) : List PrimCall :=
  [.readTimeCall inv (.acCharge n), .readTimeCall inv (.chargePriority n),
   .readTimeCall inv (.forcedDischarge n), .readTimeCall inv (.acFirst n)]

/-- `Coordinator::inverter_connected` from `src/src/coordinator/mod.rs`,
at the granularity of the primitive calls it dispatches: nothing for an
unknown datalog or an inverter without `publish_holdings_on_connect`,
otherwise six `read_hold` calls of 40 registers at 0, 40, 80, 120, 160,
200 followed by the twelve time-register reads for slots 1, 2, 3. -/
def inverterConnected (inverters : List Inverter) (datalog : Serial) :
    List PrimCall :=
  match enabledInverterWithDatalog inverters datalog with
  | none => []
  | some inv =>
    if !inv.publishHoldingsOnConnect then []
    else
      [.readHoldCall inv 0 40, .readHoldCall inv 40 40,
       .readHoldCall inv 80 40, .readHoldCall inv 120 40,
       .readHoldCall inv 160 40, .readHoldCall inv 200 40]
      ++ ([1, 2, 3].map (timeCallsForNum inv)).flatten

/-- `config::Mqtt` from `src/src/config.rs`, restricted to the fields
`Config::validate` reads (enabled, host, port); credential, namespace and
Home Assistant fields are not consulted by the verified functions. -/
structure Mqtt where
  enabled : Bool
  host : String
  port : Nat
deriving DecidableEq

/-- `config::Influx` from `src/src/config.rs`, restricted to the fields
`Config::validate` reads. -/
structure Influx where
  enabled : Bool
  url : String
  database : String
deriving DecidableEq

/-- `config::Database` from `src/src/config.rs`. -/
structure Database where
  enabled : Bool
  url : String
deriving DecidableEq

/-- `config::Scheduler` from `src/src/config.rs`. -/
structure Scheduler where
  enabled : Bool
  timesync_cron : Option String
deriving DecidableEq

/-- `config::Config` from `src/src/config.rs`, restricted to the fields
`Config::validate` reads (the loglevel string is not consulted). -/
structure Config where
  inverters : List Inverter
  mqtt : Mqtt
  influx : Influx
  databases : List Database
  scheduler : Option Scheduler
deriving DecidableEq

/-- The MQTT block of `Config::validate`: when MQTT is enabled, a zero
port then an empty host are rejected. -/
def validateMqtt (m : Mqtt) : Except String Unit :=
  if m.enabled then
    if m.port = 0 then .error "mqtt.port must be between 1 and 65535"
    else if m.host = "" then .error "MQTT host cannot be empty"
    else .ok ()
  else .ok ()

/-- The InfluxDB block of `Config::validate`: when Influx is enabled, an
unparseable URL then an empty database name are rejected.  `urlOk` stands
for `url::Url::parse` succeeding (the `url` crate is external). -/
def validateInflux (urlOk : String → Bool) (i : Influx) : Except String Unit :=
  if i.enabled then
    if !urlOk i.url then .error "Invalid InfluxDB URL"
    else if i.database = "" then .error "InfluxDB database name cannot be empty"
    else .ok ()
  else .ok ()

/-- The database loop of `Config::validate`: each enabled database must
have a parseable URL. -/
def validateDatabases (urlOk : String → Bool) : List Database → Except String Unit
  | [] => .ok ()
  | db :: rest =>
    if db.enabled then
      if !urlOk db.url then .error "Invalid database URL"
      else validateDatabases urlOk rest
    else validateDatabases urlOk rest

/-- The inverter loop of `Config::validate`: each enabled inverter must
have a non-zero port, a non-empty host and a non-zero effective read
timeout (`read_timeout.unwrap_or(900)`). -/
def validateInverters : List Inverter → Except String Unit
  | [] => .ok ()
  | inv :: rest =>
    if inv.enabled then
      if inv.port = 0 then .error "inverter.port must be between 1 and 65535"
      else if inv.host = "" then .error "Inverter host cannot be empty"
      else if inv.read_timeout.getD 900 = 0 then .error "Invalid read timeout: 0"
      else validateInverters rest
    else validateInverters rest

/-- The scheduler block of `Config::validate`: when a scheduler is present
and enabled and a cron expression is present, it must be non-empty. -/
def validateScheduler : Option Scheduler → Except String Unit
  | none => .ok ()
  | some s =>
    if s.enabled then
      match s.timesync_cron with
      | some cron =>
        if cron = "" then .error "Scheduler cron expression cannot be empty"
        else .ok ()
      | none => .ok ()
    else .ok ()

/-- The `?`-style sequencing of validation blocks: an error short-circuits,
success continues. -/
def andThen (x : Except String Unit) (rest : Except String Unit) :
    Except String Unit :=
  match x with
  | .error e => .error e
  | .ok () => rest

/-- `Config::validate` from `src/src/config.rs`: the five blocks run in
source order, the first failure aborting. -/
def Config.validate (urlOk : String → Bool) (c : Config) : Except String Unit :=
  andThen (validateMqtt c.mqtt)
    (andThen (validateInflux urlOk c.influx)
      (andThen (validateDatabases urlOk c.databases)
        (andThen (validateInverters c.inverters)
          (validateScheduler c.scheduler))))

/-- The validation rules as the spec states them, restricted (as the code
does) to enabled components: this is the declarative side of the
corrected claim C8. -/
def Config.rulesHold (urlOk : String → Bool) (c : Config) : Prop :=
  (c.mqtt.enabled = true → c.mqtt.port ≠ 0 ∧ c.mqtt.host ≠ "")
  ∧ (c.influx.enabled = true → urlOk c.influx.url = true ∧ c.influx.database ≠ "")
  ∧ (∀ db ∈ c.databases, db.enabled = true → urlOk db.url = true)
  ∧ (∀ inv ∈ c.inverters, inv.enabled = true →
      inv.port ≠ 0 ∧ inv.host ≠ "" ∧ inv.read_timeout.getD 900 ≠ 0)
  ∧ (∀ s, c.scheduler = some s → s.enabled = true →
      ∀ cron, s.timesync_cron = some cron → cron ≠ "")

/-- One lowercase hexadecimal digit. -/
def hexDigit (n : Nat) : Char :=
  if n < 10 then Char.ofNat (48 + n) else Char.ofNat (87 + n)

/-- Rust `{:#06x}` of a u16: `0x` followed by four zero-padded lowercase
hex digits. -/
def hex4 (v : Nat) : String :=
  "0x" ++ String.mk [hexDigit (v / 4096 % 16), hexDigit (v / 256 % 16),
                     hexDigit (v / 16 % 16), hexDigit (v % 16)]

/-- Rust `{:#018b}` of a u16: `0b` followed by sixteen binary digits. -/
def bin16 (v : Nat) : String :=
  "0b" ++ String.mk (((List.range 16).reverse).map
    (fun i => if v.testBit i then '1' else '0'))

/-- Rust `{:02}`: decimal, zero-padded to at least two digits. -/
def pad2 (n : Nat) : String :=
  if n < 10 then "0" ++ toString n else toString n

/-- Decimal, zero-padded to at least three digits. -/
def pad3 (n : Nat) : String :=
  if n < 10 then "00" ++ toString n
  else if n < 100 then "0" ++ toString n
  else toString n

/-- Rust `{:.1}` of `(v as f64) / 10.0` for a u16 `v`: the exact decimal
with one fractional digit (the f64 quotient is within a tiny fraction of
an ulp of it, so rounding to one decimal recovers it). -/
def fix1 (v : Nat) : String :=
  toString (v / 10) ++ "." ++ toString (v % 10)

/-- Rust `{:.2}` of `(v as f64) / 100.0` for a u16 `v`. -/
def fix2 (v : Nat) : String :=
  toString (v / 100) ++ "." ++ pad2 (v % 100)

/-- Rust `{:.3}` of `(v as f64) / 1000.0` for a u16 `v`. -/
def fix3 (v : Nat) : String :=
  toString (v / 1000) ++ "." ++ pad3 (v % 1000)

/-- The `HH:MM` rendering several time branches use: hour is the low
byte, minute the high byte, both `{:02}`. -/
def hhmm (v : Nat) : String :=
  pad2 (v % 256) ++ ":" ++ pad2 (v / 256 % 256)

/-- The names pushed for set bits, joined with `, ` in bit order. -/
def activeBitNames (v : Nat) (names : List String) : String :=
  String.intercalate ", " ((names.enum.filter (fun p => v.testBit p.1)).map (fun p => p.2))

/-- The sixteen bit labels of the register-11 reset-settings word. -/
def resetSettingNames : List String :=
  ["Energy Record Clear", "Reset All to Default", "Adjustment Ratio Clear",
   "Fault Record Clear", "Monitor Data Clear", "BMS Charge Switch On",
   "BMS Discharge Switch On", "Inverter Reboot", "Reserved", "Reserved",
   "Reserved", "Reserved", "Reserved", "Reserved", "Reserved", "Reserved"]

/-- The sixteen bit labels of the register-21 function-enable word. -/
def functionEnableNames : List String :=
  ["EPS Mode", "Over Frequency Load Reduction", "DRMS",
   "Low Voltage Ride Through", "Anti-islanding", "Neutral Detection",
   "Grid-connected Power Soft Start", "AC Charge",
   "Off-grid Seamless Switching", "Power On (0=Standby)",
   "Forced Discharge", "Forced Charge", "ISO", "GFCI", "DCI",
   "Feed In Grid"]

/-- The serial-number part label of registers 2-6. -/
def serialPartName (part : Nat) : String :=
  if part = 1 then "Year"
  else if part = 2 then "Week"
  else if part = 3 then "Factory"
  else if 4 ≤ part ∧ part ≤ 6 then "Product Code"
  else if 7 ≤ part ∧ part ≤ 9 then "Batch Number"
  else "Unknown"

/-- The grid-protection setting description of registers 29-53. -/
def gridProtectionDesc : Nat → String
  | 29 => "Grid Voltage Level 1 Under-voltage Protection"
  | 30 => "Grid Voltage Level 1 Over-voltage Protection"
  | 31 => "Grid Voltage Level 1 Under-voltage Protection Time"
  | 32 => "Grid Voltage Level 1 Over-voltage Protection Time"
  | 33 => "Grid Voltage Level 2 Under-voltage Protection"
  | 34 => "Grid Voltage Level 2 Over-voltage Protection"
  | 35 => "Grid Voltage Level 2 Under-voltage Protection Time"
  | 36 => "Grid Voltage Level 2 Over-voltage Protection Time"
  | 37 => "Grid Voltage Level 3 Under-voltage Protection"
  | 38 => "Grid Voltage Level 3 Over-voltage Protection"
  | 39 => "Grid Voltage Level 3 Under-voltage Protection Time"
  | 40 => "Grid Voltage Level 3 Over-voltage Protection Time"
  | 41 => "Grid Voltage Moving Average Over-voltage Protection"
  | 42 => "Grid Frequency Level 1 Under-frequency Protection"
  | 43 => "Grid Frequency Level 1 Over-frequency Protection"
  | 44 => "Grid Frequency Level 1 Under-frequency Protection Time"
  | 45 => "Grid Frequency Level 1 Over-frequency Protection Time"
  | 46 => "Grid Frequency Level 2 Under-frequency Protection"
  | 47 => "Grid Frequency Level 2 Over-frequency Protection"
  | 48 => "Grid Frequency Level 2 Under-frequency Protection Time"
  | 49 => "Grid Frequency Level 2 Over-frequency Protection Time"
  | 50 => "Grid Frequency Level 3 Under-frequency Protection"
  | 51 => "Grid Frequency Level 3 Over-frequency Protection"
  | 52 => "Grid Frequency Level 3 Under-frequency Protection Time"
  | 53 => "Grid Frequency Level 3 Over-frequency Protection Time"
  | _ => "Unknown Grid Protection Setting"

/-- The PV input mode name of register 20. -/
def pvInputModeName : Nat → String
  | 0 => "No PV"
  | 1 => "PV1 Connected"
  | 2 => "PV2 Connected"
  | 3 => "Two Parallel PV"
  | 4 => "Two Separate PV"
  | 5 => "PV1&3 Connected (12K Hybrid)"
  | 6 => "PV2&3 Connected (12K Hybrid)"
  | 7 => "PV1&2&3 Connected (12K Hybrid)"
  | _ => "Unknown"

/-- The grid voltage level name of register 83. -/
def gridVoltageLevelName : Nat → String
  | 0 => "220V"
  | 1 => "380V"
  | _ => "Unknown"

/-- The system mode name of register 91. -/
def systemModeName : Nat → String
  | 0 => "Normal"
  | 1 => "Backup"
  | 2 => "ECO"
  | _ => "Unknown"

/-- The system priority name of register 92. -/
def systemPriorityName : Nat → String
  | 0 => "Battery"
  | 1 => "Grid"
  | 2 => "PV"
  | _ => "Unknown"

/-- The on/off name of registers 94, 97 and 99. -/
def onOffName : Nat → String
  | 0 => "Off"
  | 1 => "On"
  | _ => "Unknown"

/-- The protocol name of register 95. -/
def protocolName : Nat → String
  | 0 => "Modbus"
  | 1 => "RS485"
  | _ => "Unknown"

/-- The baud rate name of register 96. -/
def baudRateName : Nat → String
  | 0 => "9600"
  | 1 => "19200"
  | 2 => "38400"
  | _ => "Unknown"

/-- The register-171 autotest status description. -/
def autoTestStatusDesc : Nat → String
  | 0 => "Waiting - Test not started"
  | 1 => "Testing - Test in progress"
  | 2 => "Test Failed - Last test failed"
  | 3 => "Voltage Test OK - Voltage tests passed"
  | 4 => "Frequency Test OK - Frequency tests passed"
  | 5 => "Test Passed - All tests completed successfully"
  | _ => "Unknown status"

/-- The register-171 autotest step description. -/
def autoTestStepDesc : Nat → String
  | 1 => "V1L Test - Testing lower voltage limit 1"
  | 2 => "V1H Test - Testing upper voltage limit 1"
  | 3 => "F1L Test - Testing lower frequency limit 1"
  | 4 => "F1H Test - Testing upper frequency limit 1"
  | 5 => "V2L Test - Testing lower voltage limit 2"
  | 6 => "V2H Test - Testing upper voltage limit 2"
  | 7 => "F2L Test - Testing lower frequency limit 2"
  | 8 => "F2H Test - Testing upper frequency limit 2"
  | _ => "No Test Active"

/-- Rust `{:.1}` of `(value as f64) * (-0.1 or 0.1)` in registers 172 and
174: the magnitude is the one-decimal rendering of value/10, negated when
bit 15 is set. -/
def signedFix1 (v : Nat) : String :=
  if v.testBit 15 then "-" ++ fix1 v else fix1 v

set_option maxRecDepth 8192 in
/-- `parse_hold_register` from
`src/src/coordinator/commands/parse_hold.rs`: decode one `(reg, value)`
holding-register pair into its human-readable line; registers without a
specific branch fall through to the `Unknown hold register` default.
Shift-and-mask expressions are rendered on `Nat` (`value >> 8` as
`value / 256`, `& 0xF` as `% 16`); both arguments are u16 in the
source. -/
def parse_hold_register (reg value : Nat) : String :=
  if reg = 0 then
    "Model Info: " ++ hex4 value ++
    "\n  Lithium Type: " ++ toString (value / 4096 % 16) ++
    "\n  Power Rating: " ++ toString (value / 256 % 16) ++
    "\n  Lead Acid Type: " ++ toString (value / 16 % 16) ++
    "\n  Battery Type: " ++ toString (value % 16)
  else if 2 ≤ reg ∧ reg ≤ 6 then
    "Serial Number Part " ++ toString (reg - 1) ++ " (" ++
      serialPartName (reg - 1) ++ "): " ++ hex4 value
  else if reg = 7 then
    "Hold Register: " ++ toString reg ++ " - Firmware Version Code: " ++ toString value
  else if reg = 8 then
    "Hold Register: " ++ toString reg ++ " - Backup Firmware Version Code: " ++ toString value
  else if reg = 9 then
    "Hold Register: " ++ toString reg ++ " - Slave CPU Version (Redundant): " ++ hex4 value
  else if reg = 10 then
    "Hold Register: " ++ toString reg ++ " - Control CPU Version: " ++ hex4 value
  else if reg = 11 then
    "Hold Register: " ++ toString reg ++ " - Reset Settings: " ++ bin16 value ++
    "\nActive settings: " ++ activeBitNames value resetSettingNames
  else if reg = 12 then
    "Time: Month=" ++ toString (value / 256) ++ " (1-12), Year=20" ++
      pad2 (value % 256) ++ " (17-255)"
  else if reg = 13 then
    "Time: Hour=" ++ toString (value / 256) ++ " (0-23), Day=" ++
      toString (value % 256) ++ " (1-31)"
  else if reg = 14 then
    "Time: Second=" ++ toString (value / 256) ++ " (0-59), Minute=" ++
      toString (value % 256) ++ " (0-59)"
  else if reg = 15 then
    "Hold Register: " ++ toString reg ++ " - Communication Address: " ++
      toString value ++ " (0-150)"
  else if reg = 16 then
    "Hold Register: " ++ toString reg ++ " - Language: " ++ toString value ++ " (1=English)"
  else if reg = 19 then
    "Hold Register: " ++ toString reg ++ " - Version: " ++ toString value
  else if reg = 20 then
    "Hold Register: " ++ toString reg ++ " - PV Input Mode: " ++ toString value ++
      " - " ++ pvInputModeName value
  else if reg = 21 then
    "Hold Register: " ++ toString reg ++ " - Function Enable Flags: " ++ bin16 value ++
    "\nEnabled features: " ++ activeBitNames value functionEnableNames
  else if reg = 22 then
    "Hold Register: " ++ toString reg ++ " - Start PV Voltage: " ++ fix1 value ++
      " V (90.0-500.0V)"
  else if reg = 23 then
    "Hold Register: " ++ toString reg ++ " - Grid Connection Wait Time: " ++
      toString value ++ " seconds (30-600s)"
  else if reg = 24 then
    "Hold Register: " ++ toString reg ++ " - Grid Reconnection Wait Time: " ++
      toString value ++ " seconds (0-900s)"
  else if reg = 25 then
    "Hold Register: " ++ toString reg ++ " - Grid Connect Low Voltage: " ++ fix1 value ++ " V"
  else if reg = 26 then
    "Hold Register: " ++ toString reg ++ " - Grid Connect High Voltage: " ++ fix1 value ++ " V"
  else if reg = 27 then
    "Hold Register: " ++ toString reg ++ " - Grid Connect Low Frequency: " ++ fix2 value ++ " Hz"
  else if reg = 28 then
    "Hold Register: " ++ toString reg ++ " - Grid Connect High Frequency: " ++ fix2 value ++ " Hz"
  else if 29 ≤ reg ∧ reg ≤ 53 then
    if reg % 2 = 0 ∧ reg ≤ 41 then
      "Hold Register: " ++ toString reg ++ " - " ++ gridProtectionDesc reg ++ ": " ++
        fix1 value ++ " V"
    else if reg % 2 = 0 ∧ reg > 41 then
      "Hold Register: " ++ toString reg ++ " - " ++ gridProtectionDesc reg ++ ": " ++
        fix2 value ++ " Hz"
    else
      "Hold Register: " ++ toString reg ++ " - " ++ gridProtectionDesc reg ++ ": " ++
        toString value ++ " ms"
  else if reg = 54 then
    "Hold Register: " ++ toString reg ++ " - Maximum Q Percent for Q(V) Curve: " ++
      toString value ++ "%"
  else if reg = 55 then
    "Hold Register: " ++ toString reg ++ " - Q(V) Lower Voltage Point 1 (V1L): " ++
      fix1 value ++ " V"
  else if reg = 56 then
    "Hold Register: " ++ toString reg ++ " - Q(V) Lower Voltage Point 2 (V2L): " ++
      fix1 value ++ " V"
  else if reg = 57 then
    "Hold Register: " ++ toString reg ++ " - Q(V) Upper Voltage Point 1 (V1H): " ++
      fix1 value ++ " V"
  else if reg = 58 then
    "Hold Register: " ++ toString reg ++ " - Q(V) Upper Voltage Point 2 (V2H): " ++
      fix1 value ++ " V"
  else if reg = 59 then
    "Hold Register: " ++ toString reg ++ " - Reactive Power Command Type: " ++ toString value
  else if reg = 60 then
    "Hold Register: " ++ toString reg ++ " - Active Power Percent Command: " ++
      toString value ++ "%"
  else if reg = 61 then
    "Hold Register: " ++ toString reg ++ " - Reactive Power Percent Command: " ++
      toString value ++ "%"
  else if reg = 62 then
    "Hold Register: " ++ toString reg ++ " - Power Factor Command: " ++ fix3 value
  else if reg = 63 then
    "Hold Register: " ++ toString reg ++ " - Power Soft Start Slope: " ++ toString value
  else if reg = 64 then
    "Hold Register: " ++ toString reg ++ " - System Charge Rate: " ++ toString value ++ "%"
  else if reg = 65 then
    "Hold Register: " ++ toString reg ++ " - System Discharge Rate: " ++ toString value ++ "%"
  else if reg = 66 then
    "Hold Register: " ++ toString reg ++ " - Grid Charge Power Rate: " ++ toString value ++ "%"
  else if reg = 67 then
    "Hold Register: " ++ toString reg ++ " - AC Charge SOC Limit: " ++ toString value ++ "%"
  else if reg = 68 then
    "Hold Register: " ++ toString reg ++
      " - ACChgStart_0 AC charging start time_hour setting: " ++ hhmm value ++ " (HH:MM)"
  else if reg = 69 then
    "Hold Register: " ++ toString reg ++
      " - ACChgEndTime_0 AC charging end time_hour: " ++ hhmm value ++ " (HH:MM)"
  else if reg = 70 then
    "Hold Register: " ++ toString reg ++
      " - ACChgStart_1 AC charging start time_hour setting: " ++ hhmm value ++ " (HH:MM)"
  else if reg = 71 then
    "Hold Register: " ++ toString reg ++
      " - ACChgEndTime_1 AC charging end time_hour: " ++ hhmm value ++ " (HH:MM)"
  else if reg = 72 then
    "Hold Register: " ++ toString reg ++
      " - ACChgStart_2 AC charging start time_hour setting: " ++ hhmm value ++ " (HH:MM)"
  else if reg = 73 then
    "Hold Register: " ++ toString reg ++
      " - ACChgEndTime_2 AC charging end time_hour: " ++ hhmm value ++ " (HH:MM)"
  else if reg = 74 then
    "Hold Register: " ++ toString reg ++
      " - ChgFirstPowerCMD - Charging Priority Percentage: " ++ toString value ++ "%"
  else if reg = 75 then
    "Hold Register: " ++ toString reg ++
      " - ChgFirstSOCLimit - Charging Priority SOC Limit: " ++ toString value ++ "%"
  else if reg = 76 then
    "Hold Register: " ++ toString reg ++
      " - ChgFirstStart_0 - Charging Priority Start Time: " ++ hhmm value ++ " (HH:MM)"
  else if reg = 77 then
    "Hold Register: " ++ toString reg ++
      " - ChgFirstEnd_0 - Charging Priority End Time: " ++ hhmm value ++ " (HH:MM)"
  else if reg = 78 then
    "Hold Register: " ++ toString reg ++
      " - ChgFirstStart_1 - Charging Priority Start Time 1: " ++ hhmm value ++ " (HH:MM)"
  else if reg = 79 then
    "Hold Register: " ++ toString reg ++
      " - ChgFirstEnd_1 - Charging Priority End Time 1: " ++ hhmm value ++ " (HH:MM)"
  else if reg = 80 then
    "Hold Register: " ++ toString reg ++
      " - ChgFirstStart_2 - Charging Priority Start Time 2: " ++ hhmm value ++ " (HH:MM)"
  else if reg = 81 then
    "Hold Register: " ++ toString reg ++
      " - ChgFirstEnd_2 Charging Priority End Time 2: " ++ hhmm value ++ " (HH:MM)"
  else if reg = 82 then
    "ForcedDischgPowerCMD - Forced discharge SOC limit setting: " ++ toString value ++ " %"
  else if reg = 83 then
    "Grid Voltage Level: " ++ toString value ++ " - " ++ gridVoltageLevelName value
  else if reg = 84 then
    "Hold Register: " ++ toString reg ++
      " - ForcedDischgStart_0 - Forced discharge start time_hour setting: " ++
      hhmm value ++ " (HH:MM)"
  else if reg = 85 then
    "Hold Register: " ++ toString reg ++
      " - ForcedDischgStart_0 - Forced discharge end time_hour setting: " ++
      hhmm value ++ " (HH:MM)"
  else if reg = 86 then
    "PV2 Power Rating: " ++ fix1 value ++ " kW"
  else if reg = 87 then
    "Inverter Power Rating: " ++ fix1 value ++ " kW"
  else if reg = 88 then
    "Inverter Efficiency: " ++ fix1 value ++ "%"
  else if reg = 89 then
    "Battery Nominal Voltage: " ++ fix1 value ++ " V"
  else if reg = 90 then
    "Battery Nominal Capacity: " ++ fix1 value ++ " kWh"
  else if reg = 91 then
    "Hold Register: " ++ toString reg ++ " - System Mode: " ++ toString value ++
      " - " ++ systemModeName value
  else if reg = 92 then
    "System Priority: " ++ toString value ++ " - " ++ systemPriorityName value
  else if reg = 93 then
    "Time Zone: UTC" ++ (if value > 0 then "+" ++ toString value else toString value)
  else if reg = 94 then
    "Daylight Saving Time: " ++ toString value ++ " - " ++ onOffName value
  else if reg = 95 then
    "Communication Protocol: " ++ toString value ++ " - " ++ protocolName value
  else if reg = 96 then
    "Communication Baud Rate: " ++ toString value ++ " - " ++ baudRateName value
  else if reg = 97 then
    "Alarm Enable: " ++ toString value ++ " - " ++ onOffName value
  else if reg = 98 then
    "Alarm Delay: " ++ toString value ++ " seconds"
  else if reg = 99 then
    "Maintenance Mode: " ++ toString value ++ " - " ++ onOffName value
  else if reg = 100 then
    "Hold Register: " ++ toString reg ++ " Maintenance Time: " ++ toString value ++ " minutes"
  else if reg = 118 then
    "Hold Register: " ++ toString reg ++ " VbatStartDerating: " ++ toString value ++ " V"
  else if reg = 119 then
    "Hold Register: " ++ toString reg ++ " wCT_PowerOffset: " ++ toString value ++ " W"
  else if reg = 134 then
    "Hold Register: " ++ toString reg ++ " UVFDerateStartPoint: " ++ toString value ++ " Hz"
  else if reg = 135 then
    "Hold Register: " ++ toString reg ++ " UVFDerateEndPoint: " ++ toString value ++ " Hz"
  else if reg = 136 then
    "Hold Register: " ++ toString reg ++ " OVFDerateRatio: " ++ toString value ++ " "
  else if reg = 137 then
    "Hold Register: " ++ toString reg ++ " SpecLoadCompensate: " ++ toString value ++ " W"
  else if reg = 138 then
    "Hold Register: " ++ toString reg ++ " ChargePowerPercentCMD: " ++ toString value
  else if reg = 139 then
    "Hold Register: " ++ toString reg ++ " DischgPowerPercentCMD: " ++ toString value
  else if reg = 140 then
    "Hold Register: " ++ toString reg ++ " ACChgPowerCMD: " ++ toString value
  else if reg = 141 then
    "Hold Register: " ++ toString reg ++ " ChgFirstPowerCMD: " ++ toString value
  else if reg = 142 then
    "Hold Register: " ++ toString reg ++ " ForcedDischgPowerCMD: " ++ toString value
  else if reg = 143 then
    "Hold Register: " ++ toString reg ++ " ActivePowerPercentCMD: " ++ toString value
  else if reg = 144 then
    "Hold Register: " ++ toString reg ++ " FloatChargeVolt: " ++ toString value ++ " V"
  else if reg = 145 then
    "Hold Register: " ++ toString reg ++ " OutputPrioConfig: " ++ toString value
  else if reg = 146 then
    "Hold Register: " ++ toString reg ++ " LineMode: " ++ toString value
  else if reg = 147 then
    "Hold Register: " ++ toString reg ++ " Battery capacity: " ++ toString value ++ " Ah"
  else if reg = 148 then
    "Hold Register: " ++ toString reg ++ " Battery nominal Voltage: " ++ toString value ++ " V"
  else if reg = 149 then
    "Hold Register: " ++ toString reg ++ " EqualizationVolt: " ++ toString value ++ " "
  else if reg = 150 then
    "Hold Register: " ++ toString reg ++ " EqualizationInterval: " ++ toString value ++ " "
  else if reg = 151 then
    "Hold Register: " ++ toString reg ++ " EqualizationTime: " ++ toString value ++ " "
  else if reg = 152 then
    "Hold Register: " ++ toString reg ++ " - ACFirstStartHour_0: " ++ hhmm value ++ " (HH:MM)"
  else if reg = 153 then
    "Hold Register: " ++ toString reg ++ " - ACFirstEndHour_0: " ++ hhmm value ++ " (HH:MM)"
  else if reg = 154 then
    "Hold Register: " ++ toString reg ++ " - ACFirstStartHour_1: " ++ hhmm value ++ " (HH:MM)"
  else if reg = 155 then
    "Hold Register: " ++ toString reg ++ " - ACFirstEndHour_1: " ++ hhmm value ++ " (HH:MM)"
  else if reg = 156 then
    "Hold Register: " ++ toString reg ++ " - ACFirstStartHour_2: " ++ hhmm value ++ " (HH:MM)"
  else if reg = 157 then
    "Hold Register: " ++ toString reg ++ " - ACFirstEndHour_2: " ++ hhmm value ++ " (HH:MM)"
  else if reg = 158 then
    "Hold Register: " ++ toString reg ++ " - ACChgStartVolt: " ++ fix1 value ++ " V"
  else if reg = 159 then
    "Hold Register: " ++ toString reg ++ " - ACChgEndVolt: " ++ fix1 value ++ " V"
  else if reg = 160 then
    "Hold Register: " ++ toString reg ++ " - AC Charge Start SOC: " ++ toString value ++ "%"
  else if reg = 161 then
    "Hold Register: " ++ toString reg ++ " - AC Charge End SOC: " ++ toString value ++ "%"
  else if reg = 162 then
    "Hold Register: " ++ toString reg ++ " - Battery Warning Voltage: " ++ fix1 value ++ " V"
  else if reg = 163 then
    "Hold Register: " ++ toString reg ++ " - Battery Warning Recovery Voltage: " ++
      fix1 value ++ " V"
  else if reg = 164 then
    "Hold Register: " ++ toString reg ++ " - Battery Warning SOC: " ++ toString value ++ "%"
  else if reg = 165 then
    "Hold Register: " ++ toString reg ++ " - Battery Warning Recovery SOC: " ++
      toString value ++ "%"
  else if reg = 166 then
    "Hold Register: " ++ toString reg ++ " - Battery Low to Utility Voltage: " ++
      fix1 value ++ " V"
  else if reg = 167 then
    "Hold Register: " ++ toString reg ++ " - Battery Low to Utility SOC: " ++
      toString value ++ "%"
  else if reg = 168 then
    "Hold Register: " ++ toString reg ++ " - AC Charge Battery Current: " ++
      fix1 value ++ " A"
  else if reg = 169 then
    "Hold Register: " ++ toString reg ++ " - On Grid EOD Voltage: " ++ fix1 value ++ " V"
  else if reg = 170 then
    "Hold Register: " ++ toString reg ++ " - AutoTest Command: " ++ toString value
  else if reg = 171 then
    "AutoTest Status: " ++ hex4 value ++
    "\nStatus: " ++ toString (value % 16) ++ " - " ++ autoTestStatusDesc (value % 16) ++
    "\nStep: " ++ toString (value / 16 % 16) ++ " - " ++ autoTestStepDesc (value / 16 % 16)
  else if reg = 172 then
    "Hold Register: " ++ toString reg ++ " - AutoTest Limit: " ++ signedFix1 value ++ " " ++
      (if (171 ≤ reg ∧ reg ≤ 172) ∨ (175 ≤ reg ∧ reg ≤ 176) then "V" else "Hz")
  else if reg = 173 then
    "Hold Register: " ++ toString reg ++ " - AutoTest Default Time: " ++ toString value ++ " ms"
  else if reg = 174 then
    "Hold Register: " ++ toString reg ++ " - AutoTest Trip Value: " ++ signedFix1 value ++ " " ++
      (if (171 ≤ reg ∧ reg ≤ 172) ∨ (175 ≤ reg ∧ reg ≤ 176) then "V" else "Hz")
  else if reg = 175 then
    "Hold Register: " ++ toString reg ++ " - AutoTest Trip Time: " ++ toString value ++ " ms"
  else if reg = 180 then
    "Hold Register: " ++ toString reg ++ " - AFCIArcThreshold: " ++ toString value
  else if reg = 181 then
    "Hold Register: " ++ toString reg ++ " - VoltWatt_V1: " ++ toString value
  else if reg = 182 then
    "Hold Register: " ++ toString reg ++ " - VoltWatt_V2: " ++ toString value
  else if reg = 183 then
    "Hold Register: " ++ toString reg ++ " - VoltWatt_DelayTime: " ++ toString value ++ " ms"
  else if reg = 184 then
    "Hold Register: " ++ toString reg ++ " - VoltWatt_P2: " ++ toString value
  else if reg = 185 then
    "Hold Register: " ++ toString reg ++ " - Vref_QV: " ++ toString value
  else if reg = 186 then
    "Hold Register: " ++ toString reg ++ " - Vref_filtertime: " ++ toString value ++ " seconds"
  else if reg = 187 then
    "Hold Register: " ++ toString reg ++ " - Q3_QV: " ++ toString value
  else if reg = 188 then
    "Hold Register: " ++ toString reg ++ " - Q4_QV: " ++ toString value
  else if reg = 189 then
    "Hold Register: " ++ toString reg ++ " - P1_QP: " ++ toString value ++ " %"
  else if reg = 190 then
    "Hold Register: " ++ toString reg ++ " - P2_QP: " ++ toString value ++ " %"
  else if reg = 191 then
    "Hold Register: " ++ toString reg ++ " - P3_QP: " ++ toString value ++ " %"
  else if reg = 192 then
    "Hold Register: " ++ toString reg ++ " - P4_QP: " ++ toString value ++ " %"
  else
    "Unknown hold register " ++ toString reg ++ ": " ++ toString value

/-- The registers with a specific branch in `parse_hold_register`; every
other u16 register falls through to the default arm. -/
def HoldRegisterHandled (reg : Nat) : Prop :=
  reg = 0 ∨ (2 ≤ reg ∧ reg ≤ 16) ∨ (19 ≤ reg ∧ reg ≤ 100) ∨ reg = 118 ∨
  reg = 119 ∨ (134 ≤ reg ∧ reg ≤ 175) ∨ (180 ≤ reg ∧ reg ≤ 192)

instance (reg : Nat) : Decidable (HoldRegisterHandled reg) := by
  unfold HoldRegisterHandled
  infer_instance

/-! ### Concrete fixtures used by witnesses and counterexamples -/

/-- A read-only inverter config (spec §8 scenario 4's setup). -/
def invRO : Inverter :=
  ⟨true, "10.0.0.4", 8000, "SA12345678", "BA12345678",
   none, none, none, none, none, none, true⟩

/-- A writable inverter config (spec §8 scenario 2's setup). -/
def invRW : Inverter :=
  ⟨true, "10.0.0.4", 8000, "SA12345678", "BA12345678",
   none, none, none, none, none, none, false⟩

/-- A writable inverter with `publish_holdings_on_connect` set and a
register block size of 20 (not the default 40). -/
def inv20 : Inverter :=
  ⟨true, "10.0.0.4", 8000, "SA12345678", "BA12345678",
   none, some true, none, none, some 20, none, false⟩

/-- The reply frame scenario 2 feeds back: WriteSingle echo of register 21
with value 0xFFFF. -/
def echoPacket : Packet :=
  .translatedData ⟨"BA12345678", .writeSingle, some "SA12345678", 21, [255, 255]⟩

/-- An inbound frame whose embedded inverter serial differs from the
configured `SA12345678` (spec §8 scenario 7). -/
def tdWrongSerial : TranslatedData :=
  ⟨"BA12345678", .readHold, some "ZZ99999999", 21, [255, 255]⟩

/-- An inbound ReadHold reply for registers 21 and 22 with values 5 and 6,
matching the configured serial. -/
def tdHoldReply : TranslatedData :=
  ⟨"BA12345678", .readHold, some "SA12345678", 21, [5, 0, 6, 0]⟩

/-! ### Theorems -/

/-- Helper: flattening singleton lists is the plain map. -/
theorem map_singleton_flatten {α β : Type} (f : α → β) (l : List α) :
    (l.map (fun a => [f a])).flatten = l.map f := by
  induction l with
  | nil => rfl
  | cons a t ih => simp [ih]

/-- C1: for every inverter whose `read_only` flag is true, `SetHold::run`
fails immediately with the read-only error and sends no packet on the
`to_inverter` channel, whatever the channel and reply behaviour. -/
theorem setHold_readOnly_no_frame (inv : Inverter) (register value : Nat)
    (sendOk : Bool) (reply : Except String Packet)
    (h : inv.read_only = true) :
    (setHoldRun inv register value sendOk reply).sent = [] ∧
    ∃ e, (setHoldRun inv register value sendOk reply).result = .error e := by
  simp [setHoldRun, h]

/-- Witness for C1: the concrete read-only inverter of spec scenario 4,
register 21, value 0xFFFF. -/
theorem setHold_readOnly_no_frame_witness :
    (setHoldRun invRO 21 65535 true (.error "timeout")).sent = [] ∧
    ∃ e, (setHoldRun invRO 21 65535 true (.error "timeout")).result = .error e :=
  setHold_readOnly_no_frame invRO 21 65535 true (.error "timeout") rfl

/-- C2: for a non-read-only inverter whose request was sent and answered
by a matching reply `p`, `SetHold::run` returns `Ok p` exactly when the
echoed value equals the written value, and returns an error (the
write-mismatch message) whenever it differs. -/
theorem setHold_echo_verification (inv : Inverter) (register value : Nat)
    (p : Packet) (h : inv.read_only = false) :
    ((setHoldRun inv register value true (.ok p)).result = .ok p ↔
      p.value = value) ∧
    (p.value ≠ value →
      ∃ e, (setHoldRun inv register value true (.ok p)).result = .error e) := by
  by_cases hv : p.value = value <;> simp [setHoldRun, h, hv]

/-- Witness for C2: scenario 2's write of 0xFFFF to register 21 with the
faithful echo reply. -/
theorem setHold_echo_verification_witness :
    ((setHoldRun invRW 21 65535 true (.ok echoPacket)).result = .ok echoPacket ↔
      echoPacket.value = 65535) ∧
    (echoPacket.value ≠ 65535 →
      ∃ e, (setHoldRun invRW 21 65535 true (.ok echoPacket)).result = .error e) :=
  setHold_echo_verification invRW 21 65535 echoPacket rfl

/-- C4: an inbound `TranslatedData` whose embedded inverter serial differs
from the configured one is dropped: the `serial_mismatches` counter is
incremented by exactly one, no event (cache update or MQTT publish) is
emitted, and the function returns `Ok`. -/
theorem serial_mismatch_dropped (mqttEnabled : Bool)
    (decodeRI : TranslatedData → Except String ReadInputVariant)
    (jsonAll json1 : String) (td : TranslatedData) (inv : Inverter)
    (h : td.inverter ≠ some inv.serial) :
    processInverterPacket mqttEnabled decodeRI jsonAll json1
      (.translatedData td) inv = ⟨1, [], true⟩ := by
  simp [processInverterPacket, h]

/-- Witness for C4: a frame carrying serial `ZZ99999999` against the
configured `SA12345678`. -/
theorem serial_mismatch_dropped_witness :
    processInverterPacket true (fun _ => .error "") "" ""
      (.translatedData tdWrongSerial) invRW = ⟨1, [], true⟩ :=
  serial_mismatch_dropped true (fun _ => .error "") "" "" tdWrongSerial invRW
    (by decide)

/-- C5: `ReadInputs(inverter, n)` for `n` in 1..4 dispatches exactly one
`read_inputs` call with register `40 * (n - 1)` and count 40, and the
built request frame encodes the count in the values field as
`[count_low, 0]`. -/
theorem readInputs_block_dispatch (inv : Inverter) (n : Nat)
    (reply : Except String Packet) (h : 1 ≤ n ∧ n ≤ 4) :
    processCommandCalls (.readInputs inv n) =
      .ok (.readInputsCall inv (40 * (n - 1)) 40) ∧
    (readInputsRun inv (40 * (n - 1)) 40 true reply).sent =
      [Packet.translatedData
        ⟨inv.datalog, .readInput, some inv.serial, 40 * (n - 1), [40, 0]⟩] ∧
    ∀ r c, (readInputsRun inv r c true reply).sent =
      [Packet.translatedData
        ⟨inv.datalog, .readInput, some inv.serial, r, [c % 256, 0]⟩] := by
  obtain ⟨h1, h4⟩ := h
  interval_cases n <;> exact ⟨rfl, rfl, fun r c => rfl⟩

/-- Witness for C5: scenario 1's `read_inputs/1`, yielding register 0 and
count 40. -/
theorem readInputs_block_dispatch_witness :
    processCommandCalls (.readInputs invRW 1) =
      .ok (.readInputsCall invRW (40 * (1 - 1)) 40) ∧
    (readInputsRun invRW (40 * (1 - 1)) 40 true (.error "none")).sent =
      [Packet.translatedData
        ⟨invRW.datalog, .readInput, some invRW.serial, 40 * (1 - 1), [40, 0]⟩] ∧
    ∀ r c, (readInputsRun invRW r c true (.error "none")).sent =
      [Packet.translatedData
        ⟨invRW.datalog, .readInput, some invRW.serial, r, [c % 256, 0]⟩] :=
  readInputs_block_dispatch invRW 1 (.error "none") (by decide)

/-- C7: an inbound ReadHold frame that passes the serial check, with MQTT
enabled, produces one register-cache write per decoded pair followed by
one retained publish per pair to `{datalog}/hold/{reg}`, and returns
`Ok`. -/
theorem readHold_cached_and_published
    (decodeRI : TranslatedData → Except String ReadInputVariant)
    (jsonAll json1 : String) (td : TranslatedData) (inv : Inverter)
    (hser : td.inverter = some inv.serial)
    (hfn : td.device_function = .readHold) :
    processInverterPacket true decodeRI jsonAll json1
      (.translatedData td) inv =
      ⟨0, td.pairs.map (fun p => Event.cacheWrite p.1 p.2) ++
          td.pairs.map (fun p => Event.mqttMsg
            ⟨inv.datalog ++ "/hold/" ++ toString p.1, true, toString p.2⟩),
        true⟩ := by
  simp only [processInverterPacket, hser, hfn, ne_eq, not_true_eq_false,
    if_false, publishHoldMessage, publishMessage, Bool.not_true]
  rw [if_neg (by simp)]
  simp [map_singleton_flatten]

/-- Witness for C7: the two-pair ReadHold reply `tdHoldReply` (registers
21 and 22, values 5 and 6). -/
theorem readHold_cached_and_published_witness :
    processInverterPacket true (fun _ => .error "") "" ""
      (.translatedData tdHoldReply) invRW =
      ⟨0, tdHoldReply.pairs.map (fun p => Event.cacheWrite p.1 p.2) ++
          tdHoldReply.pairs.map (fun p => Event.mqttMsg
            ⟨invRW.datalog ++ "/hold/" ++ toString p.1, true, toString p.2⟩),
        true⟩ :=
  readHold_cached_and_published (fun _ => .error "") "" "" tdHoldReply invRW
    rfl rfl

/-- C10: with MQTT disabled, `process_message` returns `Ok` having
published nothing and dispatched no command, and every publish helper
returns without emitting anything on `to_mqtt`. -/
theorem mqtt_disabled_no_emission (targets : List Inverter)
    (toCmd : Inverter → Except String Command)
    (dispatchFails : Command → Bool) (sendOk : Bool)
    (jsonAll json1 : String) (inv : Inverter) (register value : Nat)
    (pairs : List (Nat × Nat)) :
    processMessage false targets toCmd dispatchFails sendOk = .ok ⟨[], []⟩ ∧
    publishRawInputMessages false jsonAll inv = [] ∧
    publishRawInputMessages1 false json1 inv = [] ∧
    publishHoldMessage false register pairs inv = [] ∧
    publishWriteConfirmation false register value inv = [] ∧
    publishWriteMultiConfirmation false pairs inv = [] :=
  ⟨rfl, rfl, rfl, rfl, rfl, rfl⟩

/-- C6 counterexample: for the concrete inverter `inv20` whose configured
`register_block_size` is 20, the on-connect sequence still issues a
ReadHold request of 40 registers (the hard-coded page size), so the
requests are not of `register_block_size` registers each as the claim
states. -/
theorem inverterConnected_ignores_block_size :
    inv20.registerBlockSize = 20 ∧
    PrimCall.readHoldCall inv20 0 40 ∈ inverterConnected [inv20] "BA12345678" := by
  exact ⟨rfl, by decide⟩

/-- C6 (amended): for an inverter with `publish_holdings_on_connect`,
`inverter_connected` issues exactly six ReadHold requests of 40 registers
each (hard-coded, regardless of `register_block_size`) at 0, 40, 80, 120,
160, 200 in order, followed for each num in 1, 2, 3 by the four
time-register reads (AcCharge, ChargePriority, ForcedDischarge, AcFirst);
without the flag it issues nothing. -/
theorem inverterConnected_sequence (inverters : List Inverter) (d : Serial)
    (inv : Inverter) (h : enabledInverterWithDatalog inverters d = some inv) :
    (inv.publishHoldingsOnConnect = true →
      inverterConnected inverters d =
        [.readHoldCall inv 0 40, .readHoldCall inv 40 40,
         .readHoldCall inv 80 40, .readHoldCall inv 120 40,
         .readHoldCall inv 160 40, .readHoldCall inv 200 40,
         .readTimeCall inv (.acCharge 1), .readTimeCall inv (.chargePriority 1),
         .readTimeCall inv (.forcedDischarge 1), .readTimeCall inv (.acFirst 1),
         .readTimeCall inv (.acCharge 2), .readTimeCall inv (.chargePriority 2),
         .readTimeCall inv (.forcedDischarge 2), .readTimeCall inv (.acFirst 2),
         .readTimeCall inv (.acCharge 3), .readTimeCall inv (.chargePriority 3),
         .readTimeCall inv (.forcedDischarge 3), .readTimeCall inv (.acFirst 3)]) ∧
    (inv.publishHoldingsOnConnect = false → inverterConnected inverters d = []) := by
  constructor <;> intro hp <;> simp [inverterConnected, h, hp, timeCallsForNum]

/-- Witness for the amended C6 at the concrete inverter `inv20`. -/
theorem inverterConnected_sequence_witness :
    (inv20.publishHoldingsOnConnect = true →
      inverterConnected [inv20] "BA12345678" =
        [.readHoldCall inv20 0 40, .readHoldCall inv20 40 40,
         .readHoldCall inv20 80 40, .readHoldCall inv20 120 40,
         .readHoldCall inv20 160 40, .readHoldCall inv20 200 40,
         .readTimeCall inv20 (.acCharge 1), .readTimeCall inv20 (.chargePriority 1),
         .readTimeCall inv20 (.forcedDischarge 1), .readTimeCall inv20 (.acFirst 1),
         .readTimeCall inv20 (.acCharge 2), .readTimeCall inv20 (.chargePriority 2),
         .readTimeCall inv20 (.forcedDischarge 2), .readTimeCall inv20 (.acFirst 2),
         .readTimeCall inv20 (.acCharge 3), .readTimeCall inv20 (.chargePriority 3),
         .readTimeCall inv20 (.forcedDischarge 3), .readTimeCall inv20 (.acFirst 3)]) ∧
    (inv20.publishHoldingsOnConnect = false →
      inverterConnected [inv20] "BA12345678" = []) :=
  inverterConnected_sequence [inv20] "BA12345678" inv20 (by decide)

/-- C3 counterexample: a malformed command (the `to_command` parse fails
for the target inverter) publishes nothing at all — in particular no
`FAIL` — contradicting the claim that malformed commands publish `FAIL`
to the result topic. -/
theorem malformed_command_no_fail :
    processMessage true [invRW] (fun _ => .error "bad command")
      (fun _ => true) true = .ok ⟨[], []⟩ := rfl

/-- Helper: the `FAIL` messages the loop publishes, in loop order. -/
def failList (toCmd : Inverter → Except String Command)
    (dispatchFails : Command → Bool) : List Inverter → List Message
  | [] => []
  | inv :: rest =>
    match toCmd inv with
    | .error _ => failList toCmd dispatchFails rest
    | .ok c =>
      if dispatchFails c then
        ⟨c.toResultTopic, false, "FAIL"⟩ :: failList toCmd dispatchFails rest
      else failList toCmd dispatchFails rest

/-- Helper: the commands the loop dispatches, in loop order. -/
def dispatchList (toCmd : Inverter → Except String Command) :
    List Inverter → List Command
  | [] => []
  | inv :: rest =>
    match toCmd inv with
    | .error _ => dispatchList toCmd rest
    | .ok c => c :: dispatchList toCmd rest

/-- Helper: with the `to_mqtt` channel open the loop never bails out, and
its output is the fail list next to the dispatch list. -/
theorem processMessageLoop_eq (toCmd : Inverter → Except String Command)
    (dispatchFails : Command → Bool) (l : List Inverter) :
    processMessageLoop toCmd dispatchFails true l =
      .ok ⟨failList toCmd dispatchFails l, dispatchList toCmd l⟩ := by
  induction l with
  | nil => rfl
  | cons inv rest ih =>
    cases hc : toCmd inv with
    | error e => simp [processMessageLoop, failList, dispatchList, hc, ih]
    | ok c =>
      by_cases hd : dispatchFails c <;>
        simp [processMessageLoop, failList, dispatchList, hc, hd, ih]

/-- Helper: every parse-ok, dispatch-failing inverter contributes its
`FAIL` message to the fail list. -/
theorem mem_failList (toCmd : Inverter → Except String Command)
    (dispatchFails : Command → Bool) (l : List Inverter) (inv : Inverter)
    (hinv : inv ∈ l) (c : Command) (hc : toCmd inv = .ok c)
    (hd : dispatchFails c = true) :
    (⟨c.toResultTopic, false, "FAIL"⟩ : Message) ∈
      failList toCmd dispatchFails l := by
  induction l with
  | nil => simp at hinv
  | cons i rest ih =>
    rcases List.mem_cons.mp hinv with hinv | hinv
    · subst hinv
      have heq : failList toCmd dispatchFails (inv :: rest) =
          ⟨c.toResultTopic, false, "FAIL"⟩ :: failList toCmd dispatchFails rest := by
        simp [failList, hc, hd]
      rw [heq]
      exact List.mem_cons_self _ _
    · have htail := ih hinv
      cases hti : toCmd i with
      | error e =>
        have heq : failList toCmd dispatchFails (i :: rest) =
            failList toCmd dispatchFails rest := by
          simp [failList, hti]
        rw [heq]; exact htail
      | ok c' =>
        by_cases hd' : dispatchFails c'
        · have heq : failList toCmd dispatchFails (i :: rest) =
              ⟨c'.toResultTopic, false, "FAIL"⟩ :: failList toCmd dispatchFails rest := by
            simp [failList, hti, hd']
          rw [heq]
          exact List.mem_cons_of_mem _ htail
        · have heq : failList toCmd dispatchFails (i :: rest) =
              failList toCmd dispatchFails rest := by
            simp [failList, hti, hd']
          rw [heq]; exact htail

/-- Helper: everything in the fail list is the `FAIL` message of a
successfully parsed command whose dispatch failed. -/
theorem of_mem_failList (toCmd : Inverter → Except String Command)
    (dispatchFails : Command → Bool) (l : List Inverter) (m : Message)
    (hm : m ∈ failList toCmd dispatchFails l) :
    ∃ c, m = ⟨c.toResultTopic, false, "FAIL"⟩ ∧ dispatchFails c = true ∧
      ∃ inv ∈ l, toCmd inv = .ok c := by
  induction l with
  | nil => simp [failList] at hm
  | cons i rest ih =>
    cases hti : toCmd i with
    | error e =>
      have heq : failList toCmd dispatchFails (i :: rest) =
          failList toCmd dispatchFails rest := by
        simp [failList, hti]
      rw [heq] at hm
      obtain ⟨c, hmc, hd, inv, hinv, hcmd⟩ := ih hm
      exact ⟨c, hmc, hd, inv, List.mem_cons_of_mem _ hinv, hcmd⟩
    | ok c =>
      by_cases hd' : dispatchFails c
      · have heq : failList toCmd dispatchFails (i :: rest) =
            ⟨c.toResultTopic, false, "FAIL"⟩ :: failList toCmd dispatchFails rest := by
          simp [failList, hti, hd']
        rw [heq] at hm
        rcases List.mem_cons.mp hm with hm | hm
        · exact ⟨c, hm, hd', i, List.mem_cons_self _ _, hti⟩
        · obtain ⟨c', hmc, hd, inv, hinv, hcmd⟩ := ih hm
          exact ⟨c', hmc, hd, inv, List.mem_cons_of_mem _ hinv, hcmd⟩
      · have heq : failList toCmd dispatchFails (i :: rest) =
            failList toCmd dispatchFails rest := by
          simp [failList, hti, hd']
        rw [heq] at hm
        obtain ⟨c', hmc, hd, inv, hinv, hcmd⟩ := ih hm
        exact ⟨c', hmc, hd, inv, List.mem_cons_of_mem _ hinv, hcmd⟩

/-- C3 (amended): with MQTT enabled and the `to_mqtt` channel open, the
coordinator publishes `FAIL` (non-retained) to the command's result topic
for every target inverter whose message parses to a command whose
dispatch fails; and everything it publishes is such a `FAIL`.  Malformed
messages — where `to_command` fails — are only logged and publish
nothing. -/
theorem processMessage_fail_only_on_dispatch_error
    (targets : List Inverter) (toCmd : Inverter → Except String Command)
    (dispatchFails : Command → Bool) (out : ProcessMessageOut)
    (h : processMessage true targets toCmd dispatchFails true = .ok out) :
    (∀ inv ∈ targets, ∀ c, toCmd inv = .ok c → dispatchFails c = true →
      (⟨c.toResultTopic, false, "FAIL"⟩ : Message) ∈ out.published) ∧
    (∀ m ∈ out.published, ∃ c, m = ⟨c.toResultTopic, false, "FAIL"⟩ ∧
      dispatchFails c = true ∧ ∃ inv ∈ targets, toCmd inv = .ok c) := by
  have heq : processMessage true targets toCmd dispatchFails true =
      .ok ⟨failList toCmd dispatchFails targets, dispatchList toCmd targets⟩ :=
    processMessageLoop_eq toCmd dispatchFails targets
  rw [heq] at h
  simp only [Except.ok.injEq] at h
  subst h
  exact ⟨fun inv hinv c hc hd => mem_failList toCmd dispatchFails targets inv hinv c hc hd,
         fun m hm => of_mem_failList toCmd dispatchFails targets m hm⟩

/-- A command-parse oracle that always yields `set_hold` of register 21
(used by the C3 witness). -/
def toCmdW : Inverter → Except String Command :=
  fun _ => .ok (.setHold invRW 21 5)

/-- A dispatch oracle on which every command fails (used by the C3
witness). -/
def dispFailsW : Command → Bool := fun _ => true

/-- The concrete `process_message` output for the C3 witness. -/
def outW : ProcessMessageOut :=
  ⟨[⟨(Command.setHold invRW 21 5).toResultTopic, false, "FAIL"⟩],
   [Command.setHold invRW 21 5]⟩

/-- Witness for the amended C3: one inverter whose command parses and
whose dispatch fails; the published list is exactly the `FAIL` reply. -/
theorem processMessage_fail_witness :
    (∀ inv ∈ [invRW], ∀ c, toCmdW inv = .ok c → dispFailsW c = true →
      (⟨c.toResultTopic, false, "FAIL"⟩ : Message) ∈ outW.published) ∧
    (∀ m ∈ outW.published, ∃ c, m = ⟨c.toResultTopic, false, "FAIL"⟩ ∧
      dispFailsW c = true ∧ ∃ inv ∈ [invRW], toCmdW inv = .ok c) :=
  processMessage_fail_only_on_dispatch_error [invRW] toCmdW dispFailsW outW rfl

/-- C8 counterexample: a configuration whose MQTT block has port 0 and an
empty host but is disabled passes validation, so the validation rules of
the claim are not enforced for every configuration that violates them. -/
theorem validate_ignores_disabled_components :
    Config.validate (fun _ => false)
      ⟨[], ⟨false, "", 0⟩, ⟨false, "", ""⟩, [], none⟩ = .ok () ∧
    (⟨[], ⟨false, "", 0⟩, ⟨false, "", ""⟩, [], none⟩ : Config).mqtt.port = 0 ∧
    (⟨[], ⟨false, "", 0⟩, ⟨false, "", ""⟩, [], none⟩ : Config).mqtt.host = "" :=
  ⟨rfl, rfl, rfl⟩

/-- Helper: `andThen` succeeds exactly when both parts do. -/
theorem andThen_ok (x rest : Except String Unit) :
    andThen x rest = .ok () ↔ (x = .ok () ∧ rest = .ok ()) := by
  cases x with
  | error e => simp [andThen]
  | ok u => cases u; simp [andThen]

/-- Helper: the MQTT block succeeds exactly on the enabled-guarded
rules. -/
theorem validateMqtt_ok (m : Mqtt) :
    validateMqtt m = .ok () ↔ (m.enabled = true → m.port ≠ 0 ∧ m.host ≠ "") := by
  by_cases he : m.enabled <;> by_cases hp : m.port = 0 <;>
    by_cases hh : m.host = "" <;> simp [validateMqtt, he, hp, hh]

/-- Helper: the Influx block succeeds exactly on the enabled-guarded
rules. -/
theorem validateInflux_ok (urlOk : String → Bool) (i : Influx) :
    validateInflux urlOk i = .ok () ↔
      (i.enabled = true → urlOk i.url = true ∧ i.database ≠ "") := by
  by_cases he : i.enabled <;> by_cases hu : urlOk i.url <;>
    by_cases hd : i.database = "" <;> simp [validateInflux, he, hu, hd]

/-- Helper: the database loop succeeds exactly when every enabled database
has a parseable URL. -/
theorem validateDatabases_ok (urlOk : String → Bool) (dbs : List Database) :
    validateDatabases urlOk dbs = .ok () ↔
      (∀ db ∈ dbs, db.enabled = true → urlOk db.url = true) := by
  induction dbs with
  | nil => simp [validateDatabases]
  | cons db rest ih =>
    by_cases he : db.enabled <;> by_cases hu : urlOk db.url <;>
      simp [validateDatabases, he, hu, ih]

/-- Helper: the inverter loop succeeds exactly when every enabled inverter
has a non-zero port, a non-empty host and a non-zero effective read
timeout. -/
theorem validateInverters_ok (invs : List Inverter) :
    validateInverters invs = .ok () ↔
      (∀ inv ∈ invs, inv.enabled = true →
        inv.port ≠ 0 ∧ inv.host ≠ "" ∧ inv.read_timeout.getD 900 ≠ 0) := by
  induction invs with
  | nil => simp [validateInverters]
  | cons inv rest ih =>
    by_cases he : inv.enabled <;> by_cases hp : inv.port = 0 <;>
      by_cases hh : inv.host = "" <;> by_cases ht : inv.read_timeout.getD 900 = 0 <;>
      simp [validateInverters, he, hp, hh, ht, ih]

/-- Helper: the scheduler block succeeds exactly when a present, enabled
scheduler has no empty cron expression. -/
theorem validateScheduler_ok (s : Option Scheduler) :
    validateScheduler s = .ok () ↔
      (∀ sch, s = some sch → sch.enabled = true →
        ∀ cron, sch.timesync_cron = some cron → cron ≠ "") := by
  cases s with
  | none => simp [validateScheduler]
  | some sch =>
    by_cases he : sch.enabled
    · cases hc : sch.timesync_cron with
      | none => simp [validateScheduler, he, hc]
      | some cron =>
        by_cases hz : cron = "" <;> simp [validateScheduler, he, hc, hz]
    · simp [validateScheduler, he]

/-- C8 (amended): `Config::validate` succeeds exactly when every *enabled*
component satisfies its rule — non-zero port and non-empty host for the
MQTT block and each enabled inverter, parseable URL (and non-empty
database name) for an enabled Influx block, parseable URL for each
enabled database, non-zero effective read timeout for each enabled
inverter, and a non-empty cron expression when a scheduler is present and
enabled; rules of disabled components are not checked. -/
theorem validate_ok_iff_rules (urlOk : String → Bool) (c : Config) :
    Config.validate urlOk c = .ok () ↔ Config.rulesHold urlOk c := by
  unfold Config.validate Config.rulesHold
  rw [andThen_ok, andThen_ok, andThen_ok, andThen_ok,
    validateMqtt_ok, validateInflux_ok, validateDatabases_ok,
    validateInverters_ok, validateScheduler_ok]

set_option maxHeartbeats 2000000 in
set_option maxRecDepth 8192 in
/-- C9: `parse_hold_register` is total on u16 × u16, and every register
without a specific decoding branch yields exactly the default string
`Unknown hold register {reg}: {value}`. -/
theorem parse_hold_register_default (reg value : Nat)
    (hreg : reg < 65536) (_hval : value < 65536)
    (h : ¬ HoldRegisterHandled reg) :
    (∃ s, parse_hold_register reg value = s) ∧
    parse_hold_register reg value =
      "Unknown hold register " ++ toString reg ++ ": " ++ toString value := by
  refine ⟨⟨_, rfl⟩, ?_⟩
  have hd : reg = 1 ∨ reg = 17 ∨ reg = 18 ∨ (101 ≤ reg ∧ reg ≤ 117) ∨
      (120 ≤ reg ∧ reg ≤ 133) ∨ (176 ≤ reg ∧ reg ≤ 179) ∨ 193 ≤ reg := by
    unfold HoldRegisterHandled at h
    omega
  clear h hreg
  unfold parse_hold_register
  repeat rw [if_neg (by omega)]

/-- Witness for C9: register 17 (no branch) with value 5. -/
theorem parse_hold_register_default_witness :
    (∃ s, parse_hold_register 17 5 = s) ∧
    parse_hold_register 17 5 =
      "Unknown hold register " ++ toString 17 ++ ": " ++ toString 5 :=
  parse_hold_register_default 17 5 (by decide) (by decide) (by decide)

end LxpBridge
